import Mathlib

/-!
Verification development for the IslandGuard climate-resilience engine
(`src/resilience.py`, `src/citizen_alerts.py`, `src/data_loader.py`,
`ai/security_advisor_ai.py`, `utils/config.py`).

Python floats are modelled as exact rationals (`ℚ`); Python's built-in
`round(x, 2)` (round-half-to-even, "banker's rounding") is modelled by
`round2` below.  File persistence of the citizen-alert log is modelled by
explicit state passing: each operation takes the current log (a list) and
the current clock reading and returns the updated log.
-/

/-- Round-half-to-even to the nearest integer, the idealisation of Python's
built-in `round` on exact rationals: values with fractional part below 1/2
round down, above 1/2 round up, and exact halves round to the even
neighbour. -/
def rhe (q : ℚ) : ℤ :=
  if q - ⌊q⌋ < 1/2 then ⌊q⌋
  else if 1/2 < q - ⌊q⌋ then ⌊q⌋ + 1
  else if ⌊q⌋ % 2 = 0 then ⌊q⌋ else ⌊q⌋ + 1

/-- Python's `round(x, 2)`: round to two decimal places, half to even. -/
def round2 (q : ℚ) : ℚ := (rhe (q * 100) : ℚ) / 100

/-! ## Configuration constants (`utils/config.py`) -/

structure ResilienceWeights where
  exposure : ℚ
  vulnerability : ℚ
  adaptation : ℚ

/-- `RESILIENCE_WEIGHTS` from `utils/config.py`. -/
def RESILIENCE_WEIGHTS : ResilienceWeights :=
  { exposure := 0.45, vulnerability := 0.35, adaptation := 0.20 }

/-- `RESILIENCE_THRESHOLDS` from `utils/config.py`: ordered bands
`category ↦ (min_val, max_val)`, iterated in insertion order. -/
def RESILIENCE_THRESHOLDS : List (String × ℚ × ℚ) :=
  [("low", 0, 40), ("medium", 40, 70), ("high", 70, 100)]

/-! ## Scoring engine (`src/resilience.py`) -/

/-- `calculate_resilience` from `src/resilience.py`: weighted composite risk,
subtracted from 100, clamped to [0,100] by `max(0, min(100, ·))`, rounded to
two decimals. -/
def calculate_resilience (exposure vulnerability adaptation : ℚ) : ℚ :=
  let composite_risk :=
    RESILIENCE_WEIGHTS.exposure * exposure +
    RESILIENCE_WEIGHTS.vulnerability * vulnerability -
    RESILIENCE_WEIGHTS.adaptation * adaptation
  let resilience_index := 100 - composite_risk
  round2 (max 0 (min 100 resilience_index))

/-- The `for category, (min_val, max_val) in RESILIENCE_THRESHOLDS.items()`
loop of `get_resilience_category`: return the first band with
`min_val <= score < max_val`. -/
def firstMatch (score : ℚ) : List (String × ℚ × ℚ) → Option String
  | [] => none
  | e :: rest => if e.2.1 ≤ score ∧ score < e.2.2 then some e.1 else firstMatch score rest

/-- `get_resilience_category` from `src/resilience.py`: first matching band,
then the `score == 100` special case, then the `"low"` fallback. -/
def get_resilience_category (score : ℚ) : String :=
  match firstMatch score RESILIENCE_THRESHOLDS with
  | some category => category
  | none => if score = 100 then "high" else "low"

/-- Number of threshold bands whose half-open range `[min_val, max_val)`
contains `score`; used to state that the bands are non-overlapping and
leave no score in [0,100) unmatched. -/
def thresholdMatchCount (score : ℚ) : ℕ :=
  (RESILIENCE_THRESHOLDS.filter
    (fun e => decide (e.2.1 ≤ score ∧ score < e.2.2))).length

/-- Spec-side reformulation of `scoreOne`, written from the spec sentence
"`scoreOne(E,V,A)` equals `round(clamp(100 - (0.45E + 0.35V - 0.20A), 0,
100), 2)`", for comparison against `calculate_resilience`. -/
def scoreOne_spec (E V A : ℚ) : ℚ :=
  round2 (max 0 (min 100 (100 - (45/100 * E + 35/100 * V - 20/100 * A))))

/-! ## Batch scoring and scenario simulator (`src/resilience.py`) -/

structure RegionRecord where
  region_id : String
  region_name : String
  exposure : ℚ
  vulnerability : ℚ
  adaptation : ℚ

structure ScoredRecord extends RegionRecord where
  resilience_index : ℚ

/-- `calculate_resilience_batch` from `src/resilience.py`: adds the
`resilience_index` column (100 minus the weighted composite risk, clipped
to [0,100] and rounded to 2 decimals).  The record type carries the three
required columns by construction, so the `ValueError` branch for missing
columns is unreachable in this model. -/
def calculate_resilience_batch (df : List RegionRecord) : List ScoredRecord :=
  df.map (fun r =>
    { r with resilience_index :=
        round2 (max 0 (min 100 (100 -
          (RESILIENCE_WEIGHTS.exposure * r.exposure +
           RESILIENCE_WEIGHTS.vulnerability * r.vulnerability -
           RESILIENCE_WEIGHTS.adaptation * r.adaptation)))) })

/-- `simulate_cyclone_impact` from `src/resilience.py`: reject severity
outside [0,100], raise each record's exposure by `severity * 0.5` clipped
to [0,100], then recompute resilience with `calculate_resilience_batch`. -/
def simulate_cyclone_impact (df : List RegionRecord) (severity : ℤ) :
    Except String (List ScoredRecord) :=
  if ¬(0 ≤ severity ∧ severity ≤ 100) then
    Except.error "Severity doit être entre 0 et 100"
  else
    let df_simulated := df.map (fun r =>
      { r with exposure := max 0 (min 100 (r.exposure + (severity : ℚ) * 0.5)) })
    Except.ok (calculate_resilience_batch df_simulated)

/-- The Port Louis row of the module's quick-test data in `resilience.py`. -/
def portLouis : RegionRecord :=
  { region_id := "MUPL", region_name := "Port Louis", exposure := 78, vulnerability := 70, adaptation := 65 }

/-! ## Citizen report store (`src/citizen_alerts.py`)

The JSON file behind `ALERTS_FILE` is modelled as an explicit list of
records passed in and returned, and `datetime.now()` as an explicit `now`
parameter (seconds since the epoch, as `datetime.timestamp()` yields). -/

structure CitizenAlert where
  id : String
  region_id : String
  type : String
  timestamp : ℚ

/-- `save_alert` from `src/citizen_alerts.py`: builds the record
`{id: f"{region_id}_{now}", region_id, type: alert_type, timestamp: now}`,
appends it to the log and reports success.  No validation of `alert_type`
takes place (the `except` branch covers only file-I/O failure, which the
state-passing model leaves out). -/
def save_alert (alerts : List CitizenAlert) (region_id alert_type : String) (now : ℚ) :
    Bool × List CitizenAlert :=
  (true, alerts ++ [⟨region_id ++ "_" ++ toString now, region_id, alert_type, now⟩])

/-- `clear_old_alerts` from `src/citizen_alerts.py`: keep exactly the alerts
whose timestamp is strictly newer than `now - hours*3600`; return how many
were dropped together with the new log. -/
def clear_old_alerts (alerts : List CitizenAlert) (now : ℚ) (hours : ℚ) :
    ℕ × List CitizenAlert :=
  let cutoff := now - hours * 3600
  let filtered := alerts.filter (fun a => decide (cutoff < a.timestamp))
  (alerts.length - filtered.length, filtered)

structure AlertStats where
  danger_count : ℕ
  safe_count : ℕ
  total_count : ℕ
  danger_ratio : ℚ

/-- `get_region_alert_stats` from `src/citizen_alerts.py`: filter the log by
region, count the `danger` and `safe` reports and all reports, and compute
`danger/total` guarded by `total > 0`. -/
def get_region_alert_stats (alerts : List CitizenAlert) (region_id : String) : AlertStats :=
  let region_alerts := alerts.filter (fun a => a.region_id == region_id)
  let danger := (region_alerts.filter (fun a => a.type == "danger")).length
  let safe := (region_alerts.filter (fun a => a.type == "safe")).length
  let total := region_alerts.length
  { danger_count := danger, safe_count := safe, total_count := total,
    danger_ratio := if 0 < total then (danger : ℚ) / (total : ℚ) else 0 }

/-! ## Proximity resolver (`ai/security_advisor_ai.py`) -/

/-- `self.region_coords` from `ai/security_advisor_ai.py`: the static
region-centre table, in insertion order. -/
def region_coords : List (String × ℚ × ℚ) :=
  [("MUPL", -20.1612, 57.5012), ("MUMO", -20.3000, 57.4800),
   ("MUFL", -20.3400, 57.7500), ("MUGP", -20.4000, 57.6800),
   ("MURO", -19.7300, 63.4200), ("MURR", -20.1200, 57.4200),
   ("MUPW", -20.4100, 57.4200), ("MUBL", -20.3500, 57.3000),
   ("MUSA", -20.5200, 57.4200), ("MUPA", -20.0900, 57.5600),
   ("MUAG", -20.0200, 57.7500), ("MUCC", -15.8500, 59.6200)]

/-- Squared planar Euclidean distance.  The code compares true Euclidean
distances (`scipy.cdist`); comparing squares selects and orders the same
entries because the square root is strictly monotone on nonnegatives. -/
def dist2 (lat lon r_lat r_lon : ℚ) : ℚ := (lat - r_lat)^2 + (lon - r_lon)^2

/-- Squared distance from the query point to a region-coordinate entry. -/
def entryDist (lat lon : ℚ) (e : String × ℚ × ℚ) : ℚ := dist2 lat lon e.2.1 e.2.2

/-- Python's `min(distances, key=lambda x: x[1])` in `_find_nearest_region`:
scan left to right, replacing the current best only on a strictly smaller
key, so ties resolve to the earliest entry. -/
def minByDist (lat lon : ℚ) (c : String × ℚ × ℚ) (cs : List (String × ℚ × ℚ)) :
    String × ℚ × ℚ :=
  cs.foldl (fun best x => if entryDist lat lon x < entryDist lat lon best then x else best) c

/-- The `nearest_id` selection of `_find_nearest_region`; `none` corresponds
to the `ValueError` Python's `min` raises on an empty table. -/
def nearest_region_id (coords : List (String × ℚ × ℚ)) (lat lon : ℚ) : Option String :=
  match coords with
  | [] => none
  | c :: cs => some (minByDist lat lon c cs).1

/-- The `self.region_coords[nearest_id]` lookup attached to the returned
record (always succeeds for an id drawn from the table). -/
def lookup_coords (coords : List (String × ℚ × ℚ)) (rid : String) : ℚ × ℚ 
:=
  match coords.find? (fun c => c.1 == rid) with
  | some c => c.2
  | none => (0, 0)

/-- `_find_nearest_region` from `ai/security_advisor_ai.py`: select the
nearest entry of the coordinate table, look its region up in the score
data, and return `none` (`region_row.empty`) when no score row matches;
otherwise the matching row plus the region's stored coordinates. -/
def find_nearest_region (coords : List (String × ℚ × ℚ)) (scores : List ScoredRecord)
    (lat lon : ℚ) : Option (ScoredRecord × ℚ × ℚ) :=
  match nearest_region_id coords lat lon with
  | none => none
  | some nid =>
    match scores.find? (fun r => r.region_id == nid) with
    | none => none
    | some row => some (row, lookup_coords coords nid)

/-- The Port Louis score row used as witness data. -/
def portLouisScored : ScoredRecord :=
  { toRegionRecord := portLouis, resilience_index := 53.4 }

/-! ## Region batch assembler (`src/data_loader.py`) -/

/-- Character-list model of Python's `str.startswith`. -/
def chars_startWith : List Char → List Char → Bool
  | _, [] => true
  | [], _ :: _ => false
  | c :: cs, p :: ps => c == p && chars_startWith cs ps

/-- `s.startswith(pat)` on the underlying character lists (Lean's own
`String.startsWith` walks byte positions, which the kernel cannot unfold
on literals). -/
def str_startsWith (s pat : String) : Bool := chars_startWith s.data pat.data

/-- A geometry row of `load_regions_geojson`: `region_id`, `region_name`
and a geometry payload of abstract type `γ`. -/
structure GeoRow (γ : Type) where
  region_id : String
  region_name : String
  geometry : γ

/-- A usable score row of `load_resilience_data` (after its cleaning:
numeric, NaN-free, clipped).  `population` is optional, as the CSV column
may be absent. -/
structure ScoreRow where
  region_id : String
  region_name : String
  exposure : ℚ
  vulnerability : ℚ
  adaptation : ℚ
  population : Option ℚ

structure MergedRow (γ : Type) where
  region_id : String
  region_name : String
  geometry : γ
  exposure : ℚ
  vulnerability : ℚ
  adaptation : ℚ
  population : ℚ

/-- The id normalisation `astype(str).str.strip().str.upper()` of the
identifier-based merge branch. -/
def normalize_id (s : String) : String := s.trim.toUpper

/-- One output row of the positional branch: geometry kept, every data
column copied from the score row, population defaulting to 50000. -/
def mergePositional {γ : Type} (g : GeoRow γ) (s : ScoreRow) : MergedRow γ :=
  { region_id := s.region_id, region_name := s.region_name, geometry := g.geometry,
    exposure := s.exposure, vulnerability := s.vulnerability,
    adaptation := s.adaptation, population := s.population.getD 50000 }

/-- One output row of the identifier-based inner merge. -/
def mergeById {γ : Type} (g : GeoRow γ) (s : ScoreRow) : MergedRow γ :=
  { region_id := normalize_id s.region_id, region_name := s.region_name,
    geometry := g.geometry, exposure := s.exposure, vulnerability := s.vulnerability,
    adaptation := s.adaptation, population := s.population.getD 50000 }

/-- `merge_data` from `src/data_loader.py`: empty sources yield an empty
frame; a generated-placeholder marker (`TEMP_` on the first geometry id)
selects the positional merge over both sources truncated to the shorter
length; otherwise an inner join on normalized ids (left order, as pandas
`merge(how='inner')` keeps it). -/
def merge_data {γ : Type} (geo : List (GeoRow γ)) (scores : List ScoreRow) :
    List (MergedRow γ) :=
  match geo, scores with
  | [], _ => []
  | _ :: _, [] => []
  | g0 :: _, _ :: _ =>
    if str_startsWith g0.region_id "TEMP_" then
      let n := min geo.length scores.length
      List.zipWith mergePositional (geo.take n) (scores.take n)
    else
      geo.flatMap (fun g =>
        (scores.filter
          (fun s => normalize_id s.region_id == normalize_id g.region_id)).map
          (fun s => mergeById g s))

/-- Placeholder geometry rows as `load_regions_geojson` generates them. -/
def tempGeoRows : List (GeoRow ℕ) :=
  [⟨"TEMP_00", "Région 1", 0⟩, ⟨"TEMP_01", "Région 2", 1⟩, ⟨"TEMP_02", "Région 3", 2⟩]

/-- Three usable score rows. -/
def csvScoreRows : List ScoreRow :=
  [⟨"MUPL", "Port Louis", 78, 70, 65, none⟩,
   ⟨"MUPW", "Plaines Wilhems", 60, 68, 70, none⟩,
   ⟨"MUBL", "Black River", 80, 60, 55, none⟩]

theorem le_rhe (q : ℚ) : ⌊q⌋ ≤ rhe q := by
  unfold rhe; split_ifs <;> omega

theorem rhe_le (q : ℚ) : rhe q ≤ ⌊q⌋ + 1 := by
  unfold rhe; split_ifs <;> omega

theorem rhe_mono {x y : ℚ} (h : x ≤ y) : rhe x ≤ rhe y := by
  have hf : ⌊x⌋ ≤ ⌊y⌋ := Int.floor_le_floor h
  rcases lt_or_eq_of_le hf with hlt | heq
  · calc rhe x ≤ ⌊x⌋ + 1 := rhe_le x
    _ ≤ ⌊y⌋ := by omega
    _ ≤ rhe y := le_rhe y
  · unfold rhe
    rw [heq]
    split_ifs <;> first | omega | (exfalso; linarith)

theorem rhe_intCast (n : ℤ) : rhe (n : ℚ) = n := by
  unfold rhe
  rw [Int.floor_intCast]
  have h : (n : ℚ) - ((n : ℤ) : ℚ) < 1/2 := by norm_num
  rw [if_pos h]

theorem round2_mono {x y : ℚ} (h : x ≤ y) : round2 x ≤ round2 y := by
  unfold round2
  have := rhe_mono (mul_le_mul_of_nonneg_right h (by norm_num : (0:ℚ) ≤ 100))
  have hcast : ((rhe (x * 100) : ℚ)) ≤ ((rhe (y * 100) : ℚ)) := by exact_mod_cast this
  linarith

theorem round2_in_range {q : ℚ} (h0 : 0 ≤ q) (h1 : q ≤ 100) :
    0 ≤ round2 q ∧ round2 q ≤ 100 := by
  have hlo : rhe 0 ≤ rhe (q * 100) := rhe_mono (by linarith)
  have hhi : rhe (q * 100) ≤ rhe 10000 := rhe_mono (by linarith)
  have e0 : rhe 0 = 0 := by simpa using rhe_intCast 0
  have e1 : rhe 10000 = 10000 := by simpa using rhe_intCast 10000
  rw [e0] at hlo; rw [e1] at hhi
  have hlo' : (0:ℚ) ≤ (rhe (q * 100) : ℚ) := by exact_mod_cast hlo
  have hhi' : ((rhe (q * 100) : ℚ)) ≤ 10000 := by exact_mod_cast hhi
  constructor
  · unfold round2; linarith
  · unfold round2; linarith

-- scratch tests
example : rhe (5/2) = 2 := by norm_num [rhe]
example : rhe (7/2) = 4 := by norm_num [rhe]
example : round2 (111/10) = 111/10 := by norm_num [round2, rhe]

theorem clamp01_mem (x : ℚ) : 0 ≤ max 0 (min 100 x) ∧ max 0 (min 100 x) ≤ 100 :=
  ⟨le_max_left _ _, max_le (by norm_num) (min_le_left _ _)⟩

/-- C1: for every exposure, vulnerability and adaptation in [0,100],
`calculate_resilience` returns a value in [0,100] equal to
`round(clamp(100 - (0.45E + 0.35V - 0.20A), 0, 100), 2)`. -/
theorem calculate_resilience_meets_spec (E V A : ℚ)
    (hE0 : 0 ≤ E) (hE1 : E ≤ 100) (hV0 : 0 ≤ V) (hV1 : V ≤ 100)
    (hA0 : 0 ≤ A) (hA1 : A ≤ 100) :
    (0 ≤ calculate_resilience E V A ∧ calculate_resilience E V A ≤ 100) ∧
    calculate_resilience E V A = scoreOne_spec E V A := by
  constructor
  · unfold calculate_resilience
    exact round2_in_range (clamp01_mem _).1 (clamp01_mem _).2
  · unfold calculate_resilience scoreOne_spec RESILIENCE_WEIGHTS
    norm_num

/-- Witness for C1 at the spec's concrete example (E,V,A) = (70,60,40). -/
theorem calculate_resilience_meets_spec_witness :
    ((0:ℚ) ≤ 70 ∧ (70:ℚ) ≤ 100 ∧ (0:ℚ) ≤ 60 ∧ (60:ℚ) ≤ 100 ∧
      (0:ℚ) ≤ 40 ∧ (40:ℚ) ≤ 100) ∧
    ((0 ≤ calculate_resilience 70 60 40 ∧ calculate_resilience 70 60 40 ≤ 100) ∧
      calculate_resilience 70 60 40 = scoreOne_spec 70 60 40) :=
  ⟨by norm_num,
   calculate_resilience_meets_spec 70 60 40 (by norm_num) (by norm_num)
     (by norm_num) (by norm_num) (by norm_num) (by norm_num)⟩

-- scratch: the spec's concrete example scoreOne(70,60,40) = 55.5
example : calculate_resilience 70 60 40 = 111/2 := by
  norm_num [calculate_resilience, RESILIENCE_WEIGHTS, round2, rhe, min_def, max_def]

/-- C2: `get_resilience_category` is total over [0,100]: every score maps to
one of the four category names, at most one threshold band matches any
score (non-overlapping), and every score in [0,100) matches exactly one
band (contiguous, no gaps); the remaining score 100 is categorized high. -/
theorem get_resilience_category_total (q : ℚ) (h0 : 0 ≤ q) (h1 : q ≤ 100) :
    (get_resilience_category q = "critical" ∨ get_resilience_category q = "low" ∨
      get_resilience_category q = "medium" ∨ get_resilience_category q = "high") ∧
    thresholdMatchCount q ≤ 1 ∧
    (q < 100 → thresholdMatchCount q = 1) ∧
    (q = 100 → get_resilience_category q = "high") := by
  rcases lt_or_le q 40 with hq40 | hq40
  · have n40 : ¬ (40:ℚ) ≤ q := not_le.mpr hq40
    have n70 : ¬ (70:ℚ) ≤ q := not_le.mpr (by linarith)
    refine ⟨?_, ?_, ?_, ?_⟩
    · simp [get_resilience_category, firstMatch, RESILIENCE_THRESHOLDS, h0, hq40]
    · simp [thresholdMatchCount, RESILIENCE_THRESHOLDS, h0, hq40, n40, n70]
    · intro _
      simp [thresholdMatchCount, RESILIENCE_THRESHOLDS, h0, hq40, n40, n70]
    · intro h; exfalso; linarith
  · rcases lt_or_le q 70 with hq70 | hq70
    · have n40 : ¬ q < 40 := not_lt.mpr hq40
      have n70 : ¬ (70:ℚ) ≤ q := not_le.mpr hq70
      refine ⟨?_, ?_, ?_, ?_⟩
      · simp [get_resilience_category, firstMatch, RESILIENCE_THRESHOLDS, n40, hq40, hq70]
      · simp [thresholdMatchCount, RESILIENCE_THRESHOLDS, n40, hq40, hq70, n70]
      · intro _
        simp [thresholdMatchCount, RESILIENCE_THRESHOLDS, n40, hq40, hq70, n70]
      · intro h; exfalso; linarith
    · rcases lt_or_le q 100 with hq100 | hq100
      · have n40 : ¬ q < 40 := not_lt.mpr (by linarith)
        have n70 : ¬ q < 70 := not_lt.mpr hq70
        refine ⟨?_, ?_, ?_, ?_⟩
        · simp [get_resilience_category, firstMatch, RESILIENCE_THRESHOLDS, n40, n70, hq70, hq100]
        · simp [thresholdMatchCount, RESILIENCE_THRESHOLDS, n40, n70, hq70, hq100]
        · intro _
          simp [thresholdMatchCount, RESILIENCE_THRESHOLDS, n40, n70, hq70, hq100]
        · intro h; exfalso; linarith
      · have heq : q = 100 := le_antisymm h1 hq100
        subst heq
        refine ⟨?_, ?_, ?_, ?_⟩
        · norm_num [get_resilience_category, firstMatch, RESILIENCE_THRESHOLDS]
        · norm_num [thresholdMatchCount, RESILIENCE_THRESHOLDS, List.filter]
        · intro h; exfalso; linarith
        · intro _
          norm_num [get_resilience_category, firstMatch, RESILIENCE_THRESHOLDS]

/-- Witness for C2 at score 55 (and its hypotheses 0 ≤ 55 ≤ 100). -/
theorem get_resilience_category_total_witness :
    ((0:ℚ) ≤ 55 ∧ (55:ℚ) ≤ 100) ∧
    ((get_resilience_category 55 = "critical" ∨ get_resilience_category 55 = "low" ∨
      get_resilience_category 55 = "medium" ∨ get_resilience_category 55 = "high") ∧
      thresholdMatchCount 55 ≤ 1 ∧
      ((55:ℚ) < 100 → thresholdMatchCount 55 = 1) ∧
      ((55:ℚ) = 100 → get_resilience_category 55 = "high")) :=
  ⟨by norm_num, get_resilience_category_total 55 (by norm_num) (by norm_num)⟩

/-- C3 counterexample: `calculate_resilience` does not clamp its inputs.
At (E,V,A) = (200,0,0) the raw formula gives 100 - 90 = 10, while the
input-clamped call `calculate_resilience(100,0,0)` gives 55. -/
theorem calculate_resilience_no_input_clamp :
    calculate_resilience 200 0 0 ≠
      calculate_resilience (max 0 (min 100 (200:ℚ))) (max 0 (min 100 (0:ℚ)))
        (max 0 (min 100 (0:ℚ))) := by
  norm_num [calculate_resilience, RESILIENCE_WEIGHTS, round2, rhe, min_def, max_def]

/-- C3 (amended): `calculate_resilience` uses its inputs unclamped, so the
input-clamping identity holds exactly when the inputs are already in
[0,100], where clamping is the identity. -/
theorem calculate_resilience_clamp_identity (E V A : ℚ)
    (hE0 : 0 ≤ E) (hE1 : E ≤ 100) (hV0 : 0 ≤ V) (hV1 : V ≤ 100)
    (hA0 : 0 ≤ A) (hA1 : A ≤ 100) :
    calculate_resilience E V A =
      calculate_resilience (max 0 (min 100 E)) (max 0 (min 100 V)) (max 0 (min 100 A)) := by
  rw [min_eq_right hE1, max_eq_right hE0, min_eq_right hV1, max_eq_right hV0,
    min_eq_right hA1, max_eq_right hA0]

/-- Witness for the amended C3 at (E,V,A) = (70,60,40). -/
theorem calculate_resilience_clamp_identity_witness :
    ((0:ℚ) ≤ 70 ∧ (70:ℚ) ≤ 100 ∧ (0:ℚ) ≤ 60 ∧ (60:ℚ) ≤ 100 ∧
      (0:ℚ) ≤ 40 ∧ (40:ℚ) ≤ 100) ∧
    calculate_resilience 70 60 40 =
      calculate_resilience (max 0 (min 100 (70:ℚ))) (max 0 (min 100 (60:ℚ)))
        (max 0 (min 100 (40:ℚ))) :=
  ⟨by norm_num,
   calculate_resilience_clamp_identity 70 60 40 (by norm_num) (by norm_num)
     (by norm_num) (by norm_num) (by norm_num) (by norm_num)⟩

/-- C4: `simulate_cyclone_impact` returns normally exactly when the severity
lies in [0,100], and raises the range error exactly when it does not. -/
theorem simulate_cyclone_impact_range (df : List RegionRecord) (s : ℤ) :
    ((∃ out, simulate_cyclone_impact df s = Except.ok out) ↔ (0 ≤ s ∧ s ≤ 100)) ∧
    (simulate_cyclone_impact df s = Except.error "Severity doit être entre 0 et 100" ↔
      ¬(0 ≤ s ∧ s ≤ 100)) := by
  by_cases h : 0 ≤ s ∧ s ≤ 100 <;> simp [simulate_cyclone_impact, h]

/-- The recomputed resilience index is antitone in exposure, the other two
factors held fixed. -/
theorem batch_index_antitone {e1 e2 v a : ℚ} (h : e1 ≤ e2) :
    round2 (max 0 (min 100 (100 -
      (RESILIENCE_WEIGHTS.exposure * e2 + RESILIENCE_WEIGHTS.vulnerability * v -
        RESILIENCE_WEIGHTS.adaptation * a)))) ≤
    round2 (max 0 (min 100 (100 -
      (RESILIENCE_WEIGHTS.exposure * e1 + RESILIENCE_WEIGHTS.vulnerability * v -
        RESILIENCE_WEIGHTS.adaptation * a)))) := by
  apply round2_mono
  apply max_le_max le_rfl
  apply min_le_min le_rfl
  have hw : (0:ℚ) ≤ RESILIENCE_WEIGHTS.exposure := by norm_num [RESILIENCE_WEIGHTS]
  nlinarith [mul_le_mul_of_nonneg_left h hw]

/-- C5: for any batch with all factors in [0,100] and severities
`s1 < s2` both in [0,100], both simulations succeed, and record by record
the post-simulation exposure under `s2` is at least the one under `s1`
while the recomputed resilience index under `s2` is at most the one under
`s1`. -/
theorem simulate_cyclone_impact_monotone (df : List RegionRecord) (s1 s2 : ℤ)
    (h1 : 0 ≤ s1) (h12 : s1 < s2) (h2 : s2 ≤ 100)
    (hin : ∀ r ∈ df, 0 ≤ r.exposure ∧ r.exposure ≤ 100 ∧
      0 ≤ r.vulnerability ∧ r.vulnerability ≤ 100 ∧
      0 ≤ r.adaptation ∧ r.adaptation ≤ 100) :
    ∃ out1 out2, simulate_cyclone_impact df s1 = Except.ok out1 ∧
      simulate_cyclone_impact df s2 = Except.ok out2 ∧
      List.Forall₂ (fun r1 r2 => r1.exposure ≤ r2.exposure ∧
        r2.resilience_index ≤ r1.resilience_index) out1 out2 := by
  have hs1 : 0 ≤ s1 ∧ s1 ≤ 100 := ⟨h1, by omega⟩
  have hs2 : 0 ≤ s2 ∧ s2 ≤ 100 := ⟨by omega, h2⟩
  have e1 : simulate_cyclone_impact df s1 =
      Except.ok (calculate_resilience_batch (df.map (fun r =>
        { r with exposure := max 0 (min 100 (r.exposure + (s1 : ℚ) * 0.5)) }))) := by
    unfold simulate_cyclone_impact
    rw [if_neg (not_not_intro hs1)]
  have e2 : simulate_cyclone_impact df s2 =
      Except.ok (calculate_resilience_batch (df.map (fun r =>
        { r with exposure := max 0 (min 100 (r.exposure + (s2 : ℚ) * 0.5)) }))) := by
    unfold simulate_cyclone_impact
    rw [if_neg (not_not_intro hs2)]
  refine ⟨_, _, e1, e2, ?_⟩
  unfold calculate_resilience_batch
  rw [List.map_map, List.map_map, List.forall₂_map_right_iff, List.forall₂_map_left_iff,
    List.forall₂_same]
  intro r _
  have hcast : (s1 : ℚ) ≤ (s2 : ℚ) := by exact_mod_cast h12.le
  have hexp : max 0 (min 100 (r.exposure + (s1 : ℚ) * 0.5)) ≤
      max 0 (min 100 (r.exposure + (s2 : ℚ) * 0.5)) := by
    apply max_le_max le_rfl
    apply min_le_min le_rfl
    nlinarith
  exact ⟨hexp, batch_index_antitone hexp⟩

/-- Witness for C5: the Port Louis test record, severities 10 < 50. -/
theorem simulate_cyclone_impact_monotone_witness :
    ((0:ℤ) ≤ 10 ∧ (10:ℤ) < 50 ∧ (50:ℤ) ≤ 100 ∧
      (∀ r ∈ [portLouis],
        0 ≤ r.exposure ∧ r.exposure ≤ 100 ∧
        0 ≤ r.vulnerability ∧ r.vulnerability ≤ 100 ∧
        0 ≤ r.adaptation ∧ r.adaptation ≤ 100)) ∧
    (∃ out1 out2,
      simulate_cyclone_impact [portLouis] 10 = Except.ok out1 ∧
      simulate_cyclone_impact [portLouis] 50 = Except.ok out2 ∧
      List.Forall₂ (fun r1 r2 => r1.exposure ≤ r2.exposure ∧
        r2.resilience_index ≤ r1.resilience_index) out1 out2) :=
  ⟨⟨by norm_num, by norm_num, by norm_num,
    by intro r hr; simp only [List.mem_singleton] at hr; subst hr; norm_num [portLouis]⟩,
   simulate_cyclone_impact_monotone _ 10 50 (by norm_num) (by norm_num) (by norm_num)
     (by intro r hr; simp only [List.mem_singleton] at hr; subst hr; norm_num [portLouis])⟩

/-- C6 counterexample: `save_alert` accepts the kind `"volcano"`, which is
neither `danger` nor `safe`: it reports success and appends a record with
that kind, so invalid kinds neither fail nor are kept out of the log. -/
theorem save_alert_accepts_invalid_kind :
    (save_alert [] "MUPL" "volcano" 0).1 = true ∧
    ((save_alert [] "MUPL" "volcano" 0).2.map CitizenAlert.type) = ["volcano"] :=
  ⟨rfl, rfl⟩

/-- C6 (amended): `save_alert` performs no validation of the kind: for every
kind, valid or not, it reports success and appends exactly one record
carrying that kind. -/
theorem save_alert_appends_any_kind (alerts : List CitizenAlert)
    (region_id alert_type : String) (now : ℚ) :
    (save_alert alerts region_id alert_type now).1 = true ∧
    (save_alert alerts region_id alert_type now).2 =
      alerts ++ [⟨region_id ++ "_" ++ toString now, region_id, alert_type, now⟩] :=
  ⟨rfl, rfl⟩

/-- C7: `clear_old_alerts` is idempotent: running it a second time on its
own output, with no intervening append and the same clock reading and
threshold, removes 0 records, returns 0 and leaves the log unchanged. -/
theorem clear_old_alerts_idempotent (alerts : List CitizenAlert) (now hours : ℚ) :
    (clear_old_alerts (clear_old_alerts alerts now hours).2 now hours).1 = 0 ∧
    (clear_old_alerts (clear_old_alerts alerts now hours).2 now hours).2 =
      (clear_old_alerts alerts now hours).2 := by
  unfold clear_old_alerts
  simp [List.filter_filter]

/-- Counts of two mutually exclusive predicates over one list sum to at
most the list's length. -/
theorem length_filter_disjoint_le {α : Type} (l : List α) (p q : α → Bool)
    (h : ∀ a, ¬(p a = true ∧ q a = true)) :
    (l.filter p).length + (l.filter q).length ≤ l.length := by
  induction l with
  | nil => simp
  | cons x xs ih =>
    by_cases hp : p x = true
    · have hq : ¬ q x = true := fun hq => h x ⟨hp, hq⟩
      simp only [Bool.not_eq_true] at hq
      simp [List.filter_cons, hp, hq]
      omega
    · simp only [Bool.not_eq_true] at hp
      by_cases hq : q x = true
      · simp [List.filter_cons, hp, hq]
        omega
      · simp only [Bool.not_eq_true] at hq
        simp [List.filter_cons, hp, hq]
        omega

/-- C10: every aggregate satisfies `danger_count + safe_count ≤ total_count`,
`0 ≤ danger_ratio ≤ 1`, and `danger_ratio = 0` when `total_count = 0`; the
first inequality can be strict, because `save_alert` restricts the stored
kind in no way and `total_count` counts every retained report of the
region regardless of kind. -/
theorem get_region_alert_stats_invariants :
    (∀ (alerts : List CitizenAlert) (rid : String),
      (get_region_alert_stats alerts rid).danger_count +
        (get_region_alert_stats alerts rid).safe_count ≤
        (get_region_alert_stats alerts rid).total_count ∧
      0 ≤ (get_region_alert_stats alerts rid).danger_ratio ∧
      (get_region_alert_stats alerts rid).danger_ratio ≤ 1 ∧
      ((get_region_alert_stats alerts rid).total_count = 0 →
        (get_region_alert_stats alerts rid).danger_ratio = 0)) ∧
    (∃ (alerts : List CitizenAlert) (rid : String),
      (get_region_alert_stats alerts rid).danger_count +
        (get_region_alert_stats alerts rid).safe_count <
        (get_region_alert_stats alerts rid).total_count) := by
  constructor
  · intro alerts rid
    unfold get_region_alert_stats
    set la := alerts.filter (fun a => a.region_id == rid) with hla
    have hdisj : ∀ a : CitizenAlert,
        ¬((a.type == "danger") = true ∧ (a.type == "safe") = true) := by
      intro a ⟨h1, h2⟩
      rw [beq_iff_eq] at h1 h2
      rw [h1] at h2
      exact absurd h2 (by decide)
    have hcounts := length_filter_disjoint_le la _ _ hdisj
    have hd_le : (la.filter (fun a => a.type == "danger")).length ≤ la.length :=
      List.length_filter_le _ _
    refine ⟨hcounts, ?_, ?_, ?_⟩
    · dsimp only
      split_ifs with hpos
      · positivity
      · exact le_rfl
    · dsimp only
      split_ifs with hpos
      · rw [div_le_one (by exact_mod_cast hpos)]
        exact_mod_cast hd_le
      · norm_num
    · dsimp only
      intro htot
      rw [if_neg (by omega)]
  · refine ⟨(save_alert [] "MUPL" "volcano" 0).2, "MUPL", ?_⟩
    decide

/-- The left fold behind `minByDist` returns an element no farther than the
accumulator and than anything in the list, and either it is the
accumulator or it occurs in the list strictly closer than the accumulator
and than everything before its occurrence. -/
theorem minByDist_spec (lat lon : ℚ) (c : String × ℚ × ℚ)
    (cs : List (String × ℚ × ℚ)) :
    (entryDist lat lon (minByDist lat lon c cs) ≤ entryDist lat lon c ∧
      ∀ x ∈ cs, entryDist lat lon (minByDist lat lon c cs) ≤ entryDist lat lon x) ∧
    (minByDist lat lon c cs = c ∨
      ∃ l₁ l₂, cs = l₁ ++ minByDist lat lon c cs :: l₂ ∧
        entryDist lat lon (minByDist lat lon c cs) < entryDist lat lon c ∧
        ∀ x ∈ l₁, entryDist lat lon (minByDist lat lon c cs) < entryDist lat lon x) := by
  induction cs generalizing c with
  | nil => exact ⟨⟨le_rfl, by simp⟩, Or.inl rfl⟩
  | cons x xs ih =>
    have hstep : minByDist lat lon c (x :: xs) =
        minByDist lat lon (if entryDist lat lon x < entryDist lat lon c then x else c) xs :=
      rfl
    rcases ih (if entryDist lat lon x < entryDist lat lon c then x else c) with
      ⟨⟨ihb, ihall⟩, ihcase⟩
    rw [hstep]
    refine ⟨⟨?_, ?_⟩, ?_⟩
    · by_cases hx : entryDist lat lon x < entryDist lat lon c
      · rw [if_pos hx] at ihb ⊢
        exact ihb.trans hx.le
      · rw [if_neg hx] at ihb ⊢
        exact ihb
    · intro y hy
      rcases List.mem_cons.mp hy with rfl | hy
      · by_cases hx : entryDist lat lon y < entryDist lat lon c
        · rw [if_pos hx] at ihb ⊢
          exact ihb
        · rw [if_neg hx] at ihb ⊢
          exact ihb.trans (not_lt.mp hx)
      · exact ihall y hy
    · by_cases hx : entryDist lat lon x < entryDist lat lon c
      · rw [if_pos hx] at ihcase ⊢
        rcases ihcase with heq | ⟨l₁, l₂, hsplit, hlt, hpre⟩
        · right
          exact ⟨[], xs, by rw [List.nil_append, heq], by rw [heq]; exact hx, by simp⟩
        · right
          refine ⟨x :: l₁, l₂, by rw [List.cons_append, ← hsplit], hlt.trans hx, ?_⟩
          intro y hy
          rcases List.mem_cons.mp hy with rfl | hy
          · exact hlt
          · exact hpre y hy
      · rw [if_neg hx] at ihcase ⊢
        rcases ihcase with heq | ⟨l₁, l₂, hsplit, hlt, hpre⟩
        · exact Or.inl heq
        · right
          refine ⟨x :: l₁, l₂, by rw [List.cons_append, ← hsplit], hlt, ?_⟩
          intro y hy
          rcases List.mem_cons.mp hy with rfl | hy
          · exact hlt.trans_le (not_lt.mp hx)
          · exact hpre y hy

/-- C8: on a non-empty coordinate table, `_find_nearest_region` selects an
entry `best` of the table at minimal planar (squared) Euclidean distance
from the query point, every entry listed before it lying strictly farther
(first-encountered tie-break), and the call returns `none` exactly when no
score record matches the selected region id. -/
theorem find_nearest_region_spec (coords : List (String × ℚ × ℚ))
    (scores : List ScoredRecord) (lat lon : ℚ) (hne : coords ≠ []) :
    ∃ best l₁ l₂,
      nearest_region_id coords lat lon = some best.1 ∧
      coords = l₁ ++ best :: l₂ ∧
      (∀ x ∈ coords, entryDist lat lon best ≤ entryDist lat lon x) ∧
      (∀ x ∈ l₁, entryDist lat lon best < entryDist lat lon x) ∧
      (find_nearest_region coords scores lat lon = none ↔
        scores.find? (fun r => r.region_id == best.1) = none) := by
  obtain ⟨c, cs, rfl⟩ : ∃ c cs, coords = c :: cs := by
    cases coords with
    | nil => exact absurd rfl hne
    | cons c cs => exact ⟨c, cs, rfl⟩
  obtain ⟨⟨hc, hall⟩, hcase⟩ := minByDist_spec lat lon c cs
  have hiff : find_nearest_region (c :: cs) scores lat lon = none ↔
      scores.find? (fun r => r.region_id == (minByDist lat lon c cs).1) = none := by
    unfold find_nearest_region nearest_region_id
    cases hf : scores.find? (fun r => r.region_id == (minByDist lat lon c cs).1) <;>
      simp [hf]
  have hmin : ∀ x ∈ c :: cs,
      entryDist lat lon (minByDist lat lon c cs) ≤ entryDist lat lon x := by
    intro x hx
    rcases List.mem_cons.mp hx with rfl | hx
    · exact hc
    · exact hall x hx
  rcases hcase with heq | ⟨l₁, l₂, hsplit, hlt, hpre⟩
  · exact ⟨minByDist lat lon c cs, [], cs, rfl, by rw [List.nil_append, heq], hmin, by simp, hiff⟩
  · refine ⟨minByDist lat lon c cs, c :: l₁, l₂, rfl, by rw [List.cons_append, ← hsplit], hmin, ?_, hiff⟩
    intro y hy
    rcases List.mem_cons.mp hy with rfl | hy
    · exact hlt
    · exact hpre y hy

/-- Witness for C8: the real coordinate table, a score table holding only
Port Louis, and a query point. -/
theorem find_nearest_region_spec_witness :
    region_coords ≠ [] ∧
    (∃ best l₁ l₂,
      nearest_region_id region_coords (-20.1612) 57.5012 = some best.1 ∧
      region_coords = l₁ ++ best :: l₂ ∧
      (∀ x ∈ region_coords,
        entryDist (-20.1612) 57.5012 best ≤ entryDist (-20.1612) 57.5012 x) ∧
      (∀ x ∈ l₁, entryDist (-20.1612) 57.5012 best < entryDist (-20.1612) 57.5012 x) ∧
      (find_nearest_region region_coords [portLouisScored] (-20.1612) 57.5012 = none ↔
        List.find? (fun r => r.region_id == best.1) [portLouisScored] = none)) :=
  ⟨by unfold region_coords; exact List.cons_ne_nil _ _,
   find_nearest_region_spec region_coords [portLouisScored] (-20.1612) 57.5012
     (by unfold region_coords; exact List.cons_ne_nil _ _)⟩

/-- Projecting the three factor columns out of a positional merge recovers
the score rows, as long as the score side is not longer. -/
theorem zipWith_positional_proj {γ : Type} (a : List (GeoRow γ)) :
    ∀ b : List ScoreRow, b.length ≤ a.length →
      (List.zipWith mergePositional a b).map
          (fun m => (m.exposure, m.vulnerability, m.adaptation)) =
        b.map (fun s => (s.exposure, s.vulnerability, s.adaptation)) := by
  induction a with
  | nil =>
    intro b hb
    have hb0 : b = [] := List.length_eq_zero.mp (Nat.le_zero.mp hb)
    subst hb0
    simp
  | cons x xs ih =>
    intro b hb
    cases b with
    | nil => simp
    | cons y ys =>
      simp only [List.zipWith_cons_cons, List.map_cons, List.length_cons] at hb ⊢
      rw [ih ys (by omega)]
      simp [mergePositional]

/-- C9: with a generated placeholder id on the (non-empty) geometry side and
a non-empty score side, `merge_data` pairs rows by position after
truncating both sources to the shorter length: the output length is the
minimum of the two lengths and its exposure/vulnerability/adaptation
columns are the score rows' values in order. -/
theorem merge_data_positional {γ : Type} (g0 : GeoRow γ) (gs : List (GeoRow γ))
    (s0 : ScoreRow) (ss : List ScoreRow)
    (htemp : str_startsWith g0.region_id "TEMP_" = true) :
    (merge_data (g0 :: gs) (s0 :: ss)).length =
      min (g0 :: gs).length (s0 :: ss).length ∧
    (merge_data (g0 :: gs) (s0 :: ss)).map
        (fun m => (m.exposure, m.vulnerability, m.adaptation)) =
      ((s0 :: ss).take (min (g0 :: gs).length (s0 :: ss).length)).map
        (fun s => (s.exposure, s.vulnerability, s.adaptation)) := by
  have hred : merge_data (g0 :: gs) (s0 :: ss) =
      List.zipWith mergePositional
        ((g0 :: gs).take (min (g0 :: gs).length (s0 :: ss).length))
        ((s0 :: ss).take (min (g0 :: gs).length (s0 :: ss).length)) := by
    show (if str_startsWith g0.region_id "TEMP_" = true then
        let n := min (g0 :: gs).length (s0 :: ss).length
        List.zipWith mergePositional ((g0 :: gs).take n) ((s0 :: ss).take n)
      else
        (g0 :: gs).flatMap (fun g =>
          (List.filter
            (fun s => normalize_id s.region_id == normalize_id g.region_id)
            (s0 :: ss)).map (fun s => mergeById g s))) = _
    rw [if_pos htemp]
  constructor
  · rw [hred, List.length_zipWith, List.length_take, List.length_take]
    omega
  · rw [hred]
    apply zipWith_positional_proj
    rw [List.length_take, List.length_take]
    omega

/-- Witness for C9: 3 placeholder geometry rows and 3 score rows merge into
exactly 3 records matching the score rows in order. -/
theorem merge_data_positional_witness :
    (str_startsWith (GeoRow.region_id ⟨"TEMP_00", "Région 1", (0:ℕ)⟩) "TEMP_" = true) ∧
    ((merge_data tempGeoRows csvScoreRows).length =
        min tempGeoRows.length csvScoreRows.length ∧
      (merge_data tempGeoRows csvScoreRows).map
          (fun m => (m.exposure, m.vulnerability, m.adaptation)) =
        (csvScoreRows.take (min tempGeoRows.length csvScoreRows.length)).map
          (fun s => (s.exposure, s.vulnerability, s.adaptation))) :=
  ⟨by decide,
   merge_data_positional ⟨"TEMP_00", "Région 1", (0:ℕ)⟩
     [⟨"TEMP_01", "Région 2", 1⟩, ⟨"TEMP_02", "Région 3", 2⟩]
     ⟨"MUPL", "Port Louis", 78, 70, 65, none⟩
     [⟨"MUPW", "Plaines Wilhems", 60, 68, 70, none⟩,
      ⟨"MUBL", "Black River", 80, 60, 55, none⟩]
     (by decide)⟩
